import Mathlib

/-!
Verification of the Local WebApp Monitor discovery and health engine.

This file gives a shallow embedding of the core of the program:

* the SQLite-backed store (`database/db.js`): `addApp`, `recordScan`,
  `removeApp`, `getApp`, `getAppByUrl`, `getScanHistory`;
* the health checker (`agents/healthChecker.js`): the status classification
  performed by `HealthChecker.check`;
* the port scanner (`agents/portScanner.js`): `checkHttpServer` and
  `scanBatch`;
* the scan endpoint handlers in `server.js`: the per-discovered-server
  pipeline loop and its error propagation.

Network interactions are represented by explicit outcome values (the possible
results of an `axios` request or a TCP connect), and `CURRENT_TIMESTAMP` by a
strictly increasing logical clock stored in the database state, so that every
definition is executable and every operation is a pure state transformer.
-/

/-- The status column of an App: always one of the three enumerated values. -/
inductive Status where
  | unknown
  | online
  | offline
deriving DecidableEq, Repr

/-- A row of the `apps` table.  `name` and `category` are nullable columns;
`discoveredAt` is filled from `CURRENT_TIMESTAMP` at insertion;
`lastCheckedAt` is null until the first health check. -/
structure App where
  id : Nat
  url : String
  port : Nat
  name : Option String
  category : Option String
  status : Status
  discoveredAt : Nat
  lastCheckedAt : Option Nat
deriving DecidableEq, Repr

/-- A row of the `scan_history` table.  `appId` references `apps.id`;
`checkedAt` is filled from `CURRENT_TIMESTAMP` at insertion. -/
structure HistoryEntry where
  id : Nat
  appId : Nat
  status : Status
  responseTimeMs : Nat
  checkedAt : Nat
deriving DecidableEq, Repr

/-- The whole database state: the two tables in insertion order, the
autoincrement counters, and the logical clock supplying
`CURRENT_TIMESTAMP` values (strictly increasing across writes). -/
structure DB where
  apps : List App
  history : List HistoryEntry
  nextAppId : Nat
  nextHistId : Nat
  now : Nat
deriving DecidableEq, Repr

/-- JavaScript truthiness of a nullable string: `null` and the empty string
are falsy, every other string is truthy. -/
def jsTruthy : Option String → Bool
  | none => false
  | some s => !(s == "")

/-- The JavaScript expression `x || dflt` for a nullable string `x`:
the value of `x` when truthy, otherwise `dflt`. -/
def jsOr (x : Option String) (dflt : String) : String :=
  match x with
  | none => dflt
  | some s => if s == "" then dflt else s

/-- Models `SELECT * FROM apps WHERE url = ?` (the `url` column is UNIQUE, and the
model keeps at most one row per url, so the first match is the row). -/
def getAppByUrl (db : DB) (url : String) : Option App :=
  db.apps.find? (fun a => a.url == url)

/-- Models `SELECT * FROM apps WHERE id = ?`. -/
def getApp (db : DB) (id : Nat) : Option App :=
  db.apps.find? (fun a => a.id == id)

/-- The conditional `UPDATE apps SET name = ? WHERE url = ?` issued by
`addApp` when the provided name is truthy and the stored one is falsy. -/
def backfillName (apps : List App) (url : String) (name : Option String)
    (existing : App) : List App :=
  if jsTruthy name && !(jsTruthy existing.name) then
    apps.map (fun a => if a.url == url then { a with name := name } else a)
  else apps

/-- The conditional `UPDATE apps SET category = ? WHERE url = ?` issued by
`addApp` when the provided category is truthy and the stored one is falsy. -/
def backfillCategory (apps : List App) (url : String) (category : Option String)
    (existing : App) : List App :=
  if jsTruthy category && !(jsTruthy existing.category) then
    apps.map (fun a => if a.url == url then { a with category := category } else a)
  else apps

/-- Models `database.addApp(url, port, name = null, category = null)`: if a row with
this url exists, backfill falsy name/category and return the previously
fetched row; otherwise insert a new row (defaulting name to `Port <port>` and
category to `Unknown` via `||`) and return the row fetched back by url. -/
def addApp (db : DB) (url : String) (port : Nat)
    (name : Option String) (category : Option String) : DB × Option App :=
  match getAppByUrl db url with
  | some existing =>
      let apps1 := backfillName db.apps url name existing
      let apps2 := backfillCategory apps1 url category existing
      ({ db with apps := apps2 }, some existing)
  | none =>
      let newApp : App :=
        { id := db.nextAppId
          url := url
          port := port
          name := some (jsOr name ("Port " ++ toString port))
          category := some (jsOr category "Unknown")
          status := Status.unknown
          discoveredAt := db.now
          lastCheckedAt := none }
      let db' : DB :=
        { db with
          apps := db.apps ++ [newApp]
          nextAppId := db.nextAppId + 1
          now := db.now + 1 }
      (db', getAppByUrl db' url)

/-- Models `database.recordScan(url, status, responseTimeMs)`: if a row with this url
exists, run `UPDATE apps SET status = ?, last_checked_at = CURRENT_TIMESTAMP
WHERE url = ?` and `INSERT INTO scan_history (app_id, status,
response_time_ms) VALUES (?, ?, ?)`; otherwise do nothing.  Both statements
run back to back in synchronous code, hence a single state transition. -/
def recordScan (db : DB) (url : String) (status : Status)
    (responseTimeMs : Nat) : DB :=
  match getAppByUrl db url with
  | some app =>
      let apps' := db.apps.map (fun a =>
        if a.url == url then
          { a with status := status, lastCheckedAt := some db.now }
        else a)
      let entry : HistoryEntry :=
        { id := db.nextHistId
          appId := app.id
          status := status
          responseTimeMs := responseTimeMs
          checkedAt := db.now }
      { db with
        apps := apps'
        history := db.history ++ [entry]
        nextHistId := db.nextHistId + 1
        now := db.now + 1 }
  | none => db

/-- Models `database.removeApp(id)`: `DELETE FROM scan_history WHERE app_id = ?`
followed by `DELETE FROM apps WHERE id = ?`. -/
def removeApp (db : DB) (id : Nat) : DB :=
  { db with
    history := db.history.filter (fun h => !(h.appId == id))
    apps := db.apps.filter (fun a => !(a.id == id)) }

/-- Insertion step of the model of `ORDER BY checked_at DESC`: place `e`
before the first element with a strictly smaller `checked_at`. -/
def insertDesc (e : HistoryEntry) : List HistoryEntry → List HistoryEntry
  | [] => [e]
  | x :: xs =>
      if x.checkedAt < e.checkedAt then e :: x :: xs
      else x :: insertDesc e xs

/-- Sorting by `checked_at DESC` (insertion sort; the model's clock never
produces two equal timestamps, so any correct sort yields this order). -/
def sortDesc : List HistoryEntry → List HistoryEntry
  | [] => []
  | x :: xs => insertDesc x (sortDesc xs)

/-- Models `SELECT * FROM scan_history WHERE app_id = ? ORDER BY checked_at DESC
LIMIT 50`. -/
def getScanHistory (db : DB) (appId : Nat) : List HistoryEntry :=
  (sortDesc (db.history.filter (fun h => h.appId == appId))).take 50

/-- Clock consistency of a database state: every stored timestamp is in the
past of the logical clock.  This holds for every state the program can reach,
since every write stamps the current clock value and advances the clock. -/
def clockInv (db : DB) : Bool :=
  db.apps.all (fun a =>
    match a.lastCheckedAt with
    | none => true
    | some t => t < db.now) &&
  db.history.all (fun h => h.checkedAt < db.now)

/-- No stored name or category is the empty string: rows are created with
truthy (non-empty) defaults and backfilled only with truthy values, so the
empty string is never stored by any operation of the program. -/
def nonDegenerate (db : DB) : Bool :=
  db.apps.all (fun a => !(a.name == some "") && !(a.category == some ""))

/-- The static non-HTTP port list of `agents/healthChecker.js`
(databases, message brokers, FTP/SSH, mail, other services). -/
def NON_HTTP_PORTS : List Nat :=
  [3306, 5432, 27017, 6379, 11211, 9042, 7000, 7001, 5000, 8888,
   5672, 1883, 8080, 61613, 61614,
   21, 22, 23,
   25, 110, 143, 465, 587, 993, 995,
   2049, 445, 139, 138, 137, 161, 162, 514, 515]

/-- Models `isNonHttpPort`: membership of the URL's parsed port in the static list.
A URL with no explicit port parses to the empty string, whose `parseInt` is
`NaN` and never a member, represented here by `none`. -/
def isNonHttpPort : Option Nat → Bool
  | none => false
  | some p => NON_HTTP_PORTS.contains p

/-- The possible outcomes of the `axios.get` issued by `HealthChecker.check`
(`validateStatus` accepts every status, so any received response resolves). -/
inductive NetOutcome where
  | response (statusCode : Nat)
  | errConnRefused
  | errTimedOut
  | errConnAborted
  | errWithResponse (statusCode : Nat)
  | errOther
deriving DecidableEq, Repr

/-- The classification-relevant part of the result object built by
`HealthChecker.check`. -/
structure HealthResult where
  status : Status
  statusCode : Option Nat
  isHttpResponse : Bool
deriving DecidableEq, Repr

/-- Models `HealthChecker.check(url)`: classification of the request outcome, for a
URL whose parsed port is `port`.  Mirrors the source exactly: the three
response branches only cover status codes at or above 200, the initial
`status = 'unknown'` survives any other received response; `ECONNREFUSED`,
`ETIMEDOUT` and `ECONNABORTED` give offline; an error carrying a response
gives online; any remaining error gives unknown on a listed non-HTTP port and
offline otherwise (leaving the initial `isHttpResponse = true` untouched). -/
def check (port : Option Nat) (outcome : NetOutcome) : HealthResult :=
  match outcome with
  | NetOutcome.response c =>
      { status :=
          if 200 ≤ c ∧ c < 400 then Status.online
          else if 400 ≤ c ∧ c < 500 then Status.online
          else if 500 ≤ c then Status.online
          else Status.unknown
        statusCode := some c
        isHttpResponse := true }
  | NetOutcome.errConnRefused =>
      { status := Status.offline, statusCode := none, isHttpResponse := false }
  | NetOutcome.errTimedOut =>
      { status := Status.offline, statusCode := none, isHttpResponse := false }
  | NetOutcome.errConnAborted =>
      { status := Status.offline, statusCode := none, isHttpResponse := false }
  | NetOutcome.errWithResponse c =>
      { status := Status.online, statusCode := some c, isHttpResponse := true }
  | NetOutcome.errOther =>
      if isNonHttpPort port then
        { status := Status.unknown, statusCode := none, isHttpResponse := false }
      else
        { status := Status.offline, statusCode := none, isHttpResponse := true }

/-- One health-check-and-record step as performed by every caller in
`server.js`: `const health = await healthChecker.check(url);
database.recordScan(url, health.status, health.responseTime)`. -/
def healthCheckStep (db : DB) (url : String) (port : Option Nat)
    (outcome : NetOutcome) (responseTimeMs : Nat) : DB :=
  recordScan db url (check port outcome).status responseTimeMs

/-- The two protocols tried by `PortScanner.checkHttpServer`, in order. -/
inductive Protocol where
  | http
  | https
deriving DecidableEq, Repr

/-- The response body as seen by `PortScanner.extractTitle`: either a string
(carrying the result of the best-effort title-tag scan on it), or a
non-string value (axios parsed the body, e.g. as JSON). -/
inductive BodyData where
  | strBody (title : Option String)
  | nonStringBody
deriving DecidableEq, Repr

/-- Outcome of one `axios.get` attempt inside `checkHttpServer`
(`validateStatus` accepts every status, so any received response resolves). -/
inductive HttpAttempt where
  | resolved (statusCode : Nat) (data : BodyData)
  | failed
deriving DecidableEq, Repr

/-- Models `PortScanner.extractTitle(html)`: the regex scan on a string body, or a
thrown `TypeError` on a non-string body (this version has no string guard,
`html.match` is not a function there). -/
def extractTitle : BodyData → Except Unit (Option String)
  | BodyData.strBody t => Except.ok t
  | BodyData.nonStringBody => Except.error ()

/-- The protocol scheme string. -/
def protocolName : Protocol → String
  | Protocol.http => "http"
  | Protocol.https => "https"

/-- The URL built by `checkHttpServer` for a protocol and port. -/
def serverUrl (p : Protocol) (port : Nat) : String :=
  protocolName p ++ "://127.0.0.1:" ++ toString port

/-- A `DiscoveredServer` result object as built by `checkHttpServer`. -/
structure DiscoveredServer where
  port : Nat
  protocol : Protocol
  url : String
  status : String
  statusCode : Nat
  title : Option String
deriving DecidableEq, Repr

/-- One loop iteration of `checkHttpServer` for a given protocol: a resolved
response with status in [100, 600) yields the result object, except that a
thrown title extraction (non-string body) is caught and falls through to the
next protocol; anything else also falls through. -/
def tryProtocol (port : Nat) (proto : Protocol) (attempt : HttpAttempt) :
    Option DiscoveredServer :=
  match attempt with
  | HttpAttempt.failed => none
  | HttpAttempt.resolved c data =>
      if 100 ≤ c ∧ c < 600 then
        match extractTitle data with
        | Except.ok t =>
            some { port := port
                   protocol := proto
                   url := serverUrl proto port
                   status := "online"
                   statusCode := c
                   title := t }
        | Except.error _ => none
      else none

/-- Models `PortScanner.checkHttpServer(port)`: try HTTP first, then HTTPS, return
the first protocol's result object, or null when neither yields one. -/
def checkHttpServer (port : Nat) (attempt : Protocol → HttpAttempt) :
    Option DiscoveredServer :=
  match tryProtocol port Protocol.http (attempt Protocol.http) with
  | some r => some r
  | none => tryProtocol port Protocol.https (attempt Protocol.https)

/-- The per-port result of the TCP connect in `PortScanner.checkPort`:
connect event, socket error, or socket timeout. -/
inductive ConnectStatus where
  | opened
  | closed
  | timedOut
deriving DecidableEq, Repr

/-- Models `PortScanner.scanBatch(ports)`: probe every port (concurrently via
`Promise.all`, which preserves input order), keep the open ones, then run
`checkHttpServer` sequentially on each, collecting the non-null results. -/
def scanBatch (ports : List Nat) (connect : Nat → ConnectStatus)
    (attempt : Nat → Protocol → HttpAttempt) : List DiscoveredServer :=
  let results := ports.map (fun p => (p, connect p))
  let openPorts := results.filter (fun r => r.2 == ConnectStatus.opened)
  openPorts.foldl (fun acc r =>
    match checkHttpServer r.1 (attempt r.1) with
    | some srv => acc ++ [srv]
    | none => acc) []

/-- The broadcast events emitted by the scan endpoint handlers. -/
inductive Event where
  | scan_start (mode : String)
  | app_discovered
  | scan_complete (mode : String) (found : Nat)
  | scan_error
deriving DecidableEq, Repr

/-- The `for (const server of discovered)` loop body of the scan handlers in
`server.js`: the five per-server pipeline calls run with no surrounding
per-server try/catch, so the loop emits `app_discovered` after each
completed iteration and rethrows the first exception, abandoning the rest of
the list.  `process` is the sequential composition of the per-server steps
(page-content fetch, identification, `addApp`, health check, `recordScan`,
plus the metadata update in the full scan); it throws when any of them
throws. -/
def scanLoop (process : DiscoveredServer → Except String Unit) :
    List DiscoveredServer → List Event × Option String
  | [] => ([], none)
  | s :: rest =>
      match process s with
      | Except.ok _ =>
          let r := scanLoop process rest
          (Event.app_discovered :: r.1, r.2)
      | Except.error e => ([], some e)

/-- A scan endpoint handler (`POST /api/scan/quick` and `POST /api/scan/full`
share this shape): broadcast `scan_start`, run the port probe and then the
per-server loop inside one try block, broadcast `scan_complete` with the
discovered count on success; any exception reaching the catch broadcasts
`scan_error` and answers with failure. -/
def scanHandler (mode : String)
    (probe : Except String (List DiscoveredServer))
    (process : DiscoveredServer → Except String Unit) : List Event × Bool :=
  match probe with
  | Except.error _ => ([Event.scan_start mode, Event.scan_error], false)
  | Except.ok discovered =>
      match scanLoop process discovered with
      | (evs, none) =>
          (Event.scan_start mode :: evs ++
            [Event.scan_complete mode discovered.length], true)
      | (evs, some _) =>
          (Event.scan_start mode :: evs ++ [Event.scan_error], false)

lemma find?_map_update (l : List App) (url : String) (f : App → App)
    (hf : ∀ x, (f x).url = x.url) (a : App)
    (h : l.find? (fun x => x.url == url) = some a) :
    (l.map (fun x => if x.url == url then f x else x)).find?
      (fun x => x.url == url) = some (f a) := by
  induction l with
  | nil => simp at h
  | cons x xs ih =>
    cases hx : (x.url == url) with
    | true =>
      rw [List.find?_cons, hx] at h
      cases h
      rw [List.map_cons, if_pos hx, List.find?_cons_of_pos]
      rw [hf]
      exact hx
    | false =>
      rw [List.find?_cons_of_neg _ (by simp [hx])] at h
      rw [List.map_cons, if_neg (by simp [hx]),
        List.find?_cons_of_neg _ (by simp [hx])]
      exact ih h

lemma find?_id_map_update (l : List App) (url : String) (f : App → App)
    (hfi : ∀ x, (f x).id = x.id) (a : App)
    (h : l.find? (fun x => x.url == url) = some a)
    (hids : l.Pairwise (fun x y => x.id ≠ y.id)) :
    (l.map (fun x => if x.url == url then f x else x)).find?
      (fun x => x.id == a.id) = some (f a) := by
  induction l with
  | nil => simp at h
  | cons x xs ih =>
    rcases List.pairwise_cons.mp hids with ⟨hx_ids, hxs_ids⟩
    cases hx : (x.url == url) with
    | true =>
      rw [List.find?_cons, hx] at h
      cases h
      rw [List.map_cons, if_pos hx, List.find?_cons_of_pos]
      rw [hfi]
      exact beq_self_eq_true _
    | false =>
      rw [List.find?_cons_of_neg _ (by simp [hx])] at h
      have hmem : a ∈ xs := List.mem_of_find?_eq_some h
      have hne : (x.id == a.id) = false :=
        beq_eq_false_iff_ne.mpr (hx_ids a hmem)
      rw [List.map_cons, if_neg (by simp [hx]),
        List.find?_cons_of_neg _ (by simp [hne])]
      exact ih h hxs_ids

lemma mem_insertDesc {x e : HistoryEntry} {l : List HistoryEntry} :
    x ∈ insertDesc e l ↔ x = e ∨ x ∈ l := by
  induction l with
  | nil => simp [insertDesc]
  | cons y ys ih =>
    by_cases hc : y.checkedAt < e.checkedAt
    · simp [insertDesc, if_pos hc, List.mem_cons]
    · simp only [insertDesc, if_neg hc, List.mem_cons, ih]
      tauto

lemma mem_sortDesc {x : HistoryEntry} {l : List HistoryEntry} :
    x ∈ sortDesc l ↔ x ∈ l := by
  induction l with
  | nil => simp [sortDesc]
  | cons y ys ih => simp [sortDesc, mem_insertDesc, ih]

lemma insertDesc_sink (e : HistoryEntry) (l : List HistoryEntry)
    (h : ∀ x ∈ l, e.checkedAt ≤ x.checkedAt) :
    insertDesc e l = l ++ [e] := by
  induction l with
  | nil => rfl
  | cons x xs ih =>
    have hx : ¬ x.checkedAt < e.checkedAt :=
      not_lt.mpr (h x (List.mem_cons_self x xs))
    simp only [insertDesc, if_neg hx, List.cons_append]
    rw [ih (fun y hy => h y (List.mem_cons_of_mem x hy))]

lemma sortDesc_eq_reverse (l : List HistoryEntry)
    (h : l.Pairwise (fun x y => x.checkedAt < y.checkedAt)) :
    sortDesc l = l.reverse := by
  induction l with
  | nil => rfl
  | cons x xs ih =>
    rcases List.pairwise_cons.mp h with ⟨hx, hxs⟩
    have hsink : ∀ y ∈ sortDesc xs, x.checkedAt ≤ y.checkedAt := by
      intro y hy
      exact le_of_lt (hx y (mem_sortDesc.mp hy))
    simp only [sortDesc]
    rw [insertDesc_sink x (sortDesc xs) hsink, ih hxs, List.reverse_cons]

lemma length_sortDesc (l : List HistoryEntry) :
    (sortDesc l).length = l.length := by
  induction l with
  | nil => rfl
  | cons x xs ih =>
    have hlen : ∀ (e : HistoryEntry) (m : List HistoryEntry),
        (insertDesc e m).length = m.length + 1 := by
      intro e m
      induction m with
      | nil => rfl
      | cons y ys ihm =>
        by_cases hc : y.checkedAt < e.checkedAt
        · simp [insertDesc, if_pos hc]
        · simp [insertDesc, if_neg hc, ihm]
    simp [sortDesc, hlen, ih]

lemma recordScan_found (db : DB) (url : String) (a : App) (s : Status)
    (rt : Nat) (ha : getAppByUrl db url = some a) :
    recordScan db url s rt =
      { db with
        apps := db.apps.map (fun x =>
          if x.url == url then
            { x with status := s, lastCheckedAt := some db.now }
          else x)
        history := db.history ++
          [{ id := db.nextHistId, appId := a.id, status := s,
             responseTimeMs := rt, checkedAt := db.now }]
        nextHistId := db.nextHistId + 1
        now := db.now + 1 } := by
  unfold recordScan
  rw [ha]

lemma recordScan_notFound (db : DB) (url : String) (s : Status) (rt : Nat)
    (h : getAppByUrl db url = none) :
    recordScan db url s rt = db := by
  unfold recordScan
  rw [h]

lemma getAppByUrl_recordScan (db : DB) (url : String) (a : App) (s : Status)
    (rt : Nat) (ha : getAppByUrl db url = some a) :
    getAppByUrl (recordScan db url s rt) url =
      some { a with status := s, lastCheckedAt := some db.now } := by
  rw [recordScan_found db url a s rt ha]
  unfold getAppByUrl
  exact find?_map_update db.apps url
    (fun x => { x with status := s, lastCheckedAt := some db.now })
    (fun x => rfl) a ha

lemma clockInv_apps (db : DB) (h : clockInv db = true) :
    ∀ a ∈ db.apps, ∀ t, a.lastCheckedAt = some t → t < db.now := by
  rw [clockInv, Bool.and_eq_true, List.all_eq_true, List.all_eq_true] at h
  intro a ha t ht
  have := h.1 a ha
  rw [ht] at this
  simpa using this

lemma clockInv_history (db : DB) (h : clockInv db = true) :
    ∀ e ∈ db.history, e.checkedAt < db.now := by
  rw [clockInv, Bool.and_eq_true, List.all_eq_true, List.all_eq_true] at h
  intro e he
  simpa using h.2 e he

lemma clockInv_recordScan (db : DB) (url : String) (s : Status) (rt : Nat)
    (h : clockInv db = true) :
    clockInv (recordScan db url s rt) = true := by
  cases ha : getAppByUrl db url with
  | none => rw [recordScan_notFound db url s rt ha]; exact h
  | some a =>
    rw [recordScan_found db url a s rt ha]
    rw [clockInv, Bool.and_eq_true, List.all_eq_true, List.all_eq_true]
    constructor
    · intro x hx
      rcases List.mem_map.mp hx with ⟨y, hy, rfl⟩
      by_cases hyu : (y.url == url) = true
      · simp only [if_pos hyu]
        simp
      · simp only [if_neg hyu]
        cases hyt : y.lastCheckedAt with
        | none => simp
        | some t =>
          have := clockInv_apps db h y hy t hyt
          simp only [hyt]
          simp
          omega
    · intro e he
      rcases List.mem_append.mp he with he | he
      · have := clockInv_history db h e he
        simp
        omega
      · rcases List.mem_singleton.mp he with rfl
        simp

lemma pairwise_history_recordScan (db : DB) (url : String) (s : Status)
    (rt : Nat) (h : clockInv db = true)
    (hp : db.history.Pairwise (fun x y => x.checkedAt < y.checkedAt)) :
    (recordScan db url s rt).history.Pairwise
      (fun x y => x.checkedAt < y.checkedAt) := by
  cases ha : getAppByUrl db url with
  | none => rw [recordScan_notFound db url s rt ha]; exact hp
  | some a =>
    rw [recordScan_found db url a s rt ha]
    rw [List.pairwise_append]
    refine ⟨hp, List.pairwise_singleton _ _, ?_⟩
    intro x hx y hy
    rcases List.mem_singleton.mp hy with rfl
    exact clockInv_history db h x hx

lemma history_recordScan_filter (db : DB) (url : String) (a : App)
    (s : Status) (rt : Nat) (ha : getAppByUrl db url = some a) :
    (recordScan db url s rt).history.filter (fun e => e.appId == a.id) =
      db.history.filter (fun e => e.appId == a.id) ++
        [{ id := db.nextHistId, appId := a.id, status := s,
           responseTimeMs := rt, checkedAt := db.now }] := by
  rw [recordScan_found db url a s rt ha]
  rw [List.filter_append]
  simp

lemma recordScan_fold (scans : List (Status × Nat)) (db : DB) (url : String)
    (a : App) (ha : getAppByUrl db url = some a) (hc : clockInv db = true)
    (hp : db.history.Pairwise (fun x y => x.checkedAt < y.checkedAt)) :
    ∃ a',
      getAppByUrl (scans.foldl (fun d p => recordScan d url p.1 p.2) db) url
          = some a'
      ∧ a'.id = a.id
      ∧ clockInv (scans.foldl (fun d p => recordScan d url p.1 p.2) db) = true
      ∧ (scans.foldl (fun d p => recordScan d url p.1 p.2) db).history.Pairwise
          (fun x y => x.checkedAt < y.checkedAt)
      ∧ ((scans.foldl (fun d p => recordScan d url p.1 p.2) db).history.filter
            (fun e => e.appId == a.id)).length
          = (db.history.filter (fun e => e.appId == a.id)).length
              + scans.length := by
  induction scans generalizing db a with
  | nil => exact ⟨a, ha, rfl, hc, hp, by simp⟩
  | cons p rest ih =>
    have ha1 := getAppByUrl_recordScan db url a p.1 p.2 ha
    have hc1 := clockInv_recordScan db url p.1 p.2 hc
    have hp1 := pairwise_history_recordScan db url p.1 p.2 hc hp
    rcases ih (recordScan db url p.1 p.2) _ ha1 hc1 hp1 with
      ⟨a', h1, h2, h3, h4, h5⟩
    refine ⟨a', ?_, ?_, ?_, ?_, ?_⟩
    · simpa only [List.foldl_cons] using h1
    · exact h2
    · simpa only [List.foldl_cons] using h3
    · simpa only [List.foldl_cons] using h4
    · rw [List.foldl_cons]
      have h5' : ((rest.foldl (fun d p => recordScan d url p.1 p.2)
            (recordScan db url p.1 p.2)).history.filter
            (fun e => e.appId == a.id)).length
          = ((recordScan db url p.1 p.2).history.filter
              (fun e => e.appId == a.id)).length + rest.length := h5
      rw [h5', history_recordScan_filter db url a p.1 p.2 ha]
      simp
      omega

/-- A sequence of `recordScan` calls for one url, applied in order. -/
def recordScanFold (db : DB) (url : String)
    (scans : List (Status × Nat)) : DB :=
  scans.foldl (fun d p => recordScan d url p.1 p.2) db

/-- C1 (counterexample): the claim states that any received HTTP response
with a status code in 1xx-5xx classifies as online, but the source's three
branches only cover codes at or above 200: a received 100 Continue response
leaves the initial status value, which is unknown, not online. -/
theorem c1_counterexample_1xx_is_unknown :
    (check (some 3000) (NetOutcome.response 100)).status = Status.unknown
    ∧ (check (some 3000) (NetOutcome.response 100)).status ≠ Status.online := by
  constructor
  · decide
  · decide

/-- C1 (amended): `check` classifies a received response as online exactly
when its status code is at least 200 (a 1xx response leaves the initial
unknown); connection-refused, timed-out and aborted requests classify as
offline; an error carrying a response classifies as online; any other
transport error classifies as unknown when the URL's port is in the static
non-HTTP list and as offline otherwise. -/
theorem c1_check_classification (port : Option Nat) (c : Nat) :
    (200 ≤ c → (check port (NetOutcome.response c)).status = Status.online)
    ∧ (c < 200 → (check port (NetOutcome.response c)).status = Status.unknown)
    ∧ (check port NetOutcome.errConnRefused).status = Status.offline
    ∧ (check port NetOutcome.errTimedOut).status = Status.offline
    ∧ (check port NetOutcome.errConnAborted).status = Status.offline
    ∧ (check port (NetOutcome.errWithResponse c)).status = Status.online
    ∧ (isNonHttpPort port = true →
        (check port NetOutcome.errOther).status = Status.unknown)
    ∧ (isNonHttpPort port = false →
        (check port NetOutcome.errOther).status = Status.offline) := by
  refine ⟨?_, ?_, rfl, rfl, rfl, rfl, ?_, ?_⟩
  · intro hc
    simp only [check]
    split_ifs with h1 h2 h3 <;> first | rfl | omega
  · intro hc
    simp only [check]
    split_ifs with h1 h2 h3 <;> first | rfl | omega
  · intro h
    simp [check, h]
  · intro h
    simp [check, h]

/-- C1 (witness): the classification theorem applied to a 404 response, a
101 response, and plain transport errors on ports 8080 (listed) and 3000
(not listed). -/
theorem c1_witness :
    (check (some 3000) (NetOutcome.response 404)).status = Status.online
    ∧ (check (some 3000) (NetOutcome.response 101)).status = Status.unknown
    ∧ (check (some 8080) NetOutcome.errOther).status = Status.unknown
    ∧ (check (some 3000) NetOutcome.errOther).status = Status.offline :=
  ⟨(c1_check_classification (some 3000) 404).1 (by decide),
   (c1_check_classification (some 3000) 101).2.1 (by decide),
   (c1_check_classification (some 8080) 0).2.2.2.2.2.2.1 (by decide),
   (c1_check_classification (some 3000) 0).2.2.2.2.2.2.2 (by decide)⟩

/-- An App that has already been classified online, listening on port 8080
(which is in the static non-HTTP port list). -/
def c2App : App :=
  { id := 1
    url := "http://127.0.0.1:8080"
    port := 8080
    name := some "Tomcat/Java App"
    category := some "Development"
    status := Status.online
    discoveredAt := 0
    lastCheckedAt := some 1 }

/-- A store containing only `c2App`. -/
def c2Db : DB :=
  { apps := [c2App]
    history := []
    nextAppId := 2
    nextHistId := 1
    now := 2 }

/-- C2 (counterexample): an App whose status is online transitions back to
unknown on the next health-check/recordScan step, when the check against its
URL fails with a transport error that is neither refused nor timeout and the
port is in the non-HTTP list: `check` classifies that as unknown and
`recordScan` stores the classification verbatim. -/
theorem c2_counterexample_online_to_unknown :
    (getAppByUrl c2Db "http://127.0.0.1:8080").map App.status
        = some Status.online
    ∧ (getAppByUrl
          (healthCheckStep c2Db "http://127.0.0.1:8080" (some 8080)
            NetOutcome.errOther 5)
          "http://127.0.0.1:8080").map App.status
        = some Status.unknown := by
  constructor
  · decide
  · decide

/-- C2 (amended): a health-check/recordScan step stores exactly the status
produced by the check; the transitions unknown to online/offline and
online to offline (and back) do occur as claimed, but because `check` can
itself classify as unknown (a plain transport error on a listed non-HTTP
port, or a received 1xx response), an App already classified online or
offline can return to unknown on a later step. -/
theorem c2_recordScan_stores_check_status (db : DB) (url : String)
    (port : Option Nat) (outcome : NetOutcome) (rt : Nat) (a : App)
    (ha : getAppByUrl db url = some a) :
    ∃ a', getAppByUrl (healthCheckStep db url port outcome rt) url = some a'
      ∧ a'.id = a.id
      ∧ a'.status = (check port outcome).status := by
  exact ⟨_, getAppByUrl_recordScan db url a _ rt ha, rfl, rfl⟩

/-- C2 (witness): the amended theorem applied to the concrete store `c2Db`,
observing the online-to-unknown transition. -/
theorem c2_witness :
    getAppByUrl c2Db "http://127.0.0.1:8080" = some c2App
    ∧ ∃ a', getAppByUrl
          (healthCheckStep c2Db "http://127.0.0.1:8080" (some 8080)
            NetOutcome.errOther 5)
          "http://127.0.0.1:8080" = some a'
        ∧ a'.id = c2App.id
        ∧ a'.status = (check (some 8080) NetOutcome.errOther).status :=
  ⟨by decide,
   c2_recordScan_stores_check_status c2Db "http://127.0.0.1:8080" (some 8080)
     NetOutcome.errOther 5 c2App (by decide)⟩

/-- C10: `recordScan` for a url with no App row is a silent no-op: the whole
store state, in particular both tables, is left unchanged, and no error is
reported (the operation returns normally). -/
theorem c10_recordScan_unknown_url_noop (db : DB) (url : String) (s : Status)
    (rt : Nat) (h : getAppByUrl db url = none) :
    recordScan db url s rt = db
    ∧ (recordScan db url s rt).apps = db.apps
    ∧ (recordScan db url s rt).history = db.history := by
  have heq := recordScan_notFound db url s rt h
  exact ⟨heq, by rw [heq], by rw [heq]⟩

/-- C10 (witness): recording a scan against a url that is not in the store
leaves a concrete one-App store untouched. -/
theorem c10_witness :
    getAppByUrl
        { apps := [{ id := 1, url := "http://127.0.0.1:3000", port := 3000,
                     name := some "React Dev Server",
                     category := some "Development",
                     status := Status.online, discoveredAt := 0,
                     lastCheckedAt := some 1 }],
          history := [], nextAppId := 2, nextHistId := 1, now := 2 }
        "http://127.0.0.1:9999" = none
    ∧ recordScan
        { apps := [{ id := 1, url := "http://127.0.0.1:3000", port := 3000,
                     name := some "React Dev Server",
                     category := some "Development",
                     status := Status.online, discoveredAt := 0,
                     lastCheckedAt := some 1 }],
          history := [], nextAppId := 2, nextHistId := 1, now := 2 }
        "http://127.0.0.1:9999" Status.online 120
      = { apps := [{ id := 1, url := "http://127.0.0.1:3000", port := 3000,
                     name := some "React Dev Server",
                     category := some "Development",
                     status := Status.online, discoveredAt := 0,
                     lastCheckedAt := some 1 }],
          history := [], nextAppId := 2, nextHistId := 1, now := 2 } :=
  ⟨by decide,
   (c10_recordScan_unknown_url_noop _ "http://127.0.0.1:9999" Status.online
      120 (by decide)).1⟩

/-- C7: `removeApp id` deletes the App with that id and every scan-history
row referencing it: afterwards no row for that id remains in either table
(`getApp` reports not found), while every other App row and every history
row of every other App is kept unchanged. -/
theorem c7_removeApp_cascade (db : DB) (id : Nat) :
    (∀ a ∈ (removeApp db id).apps, a.id ≠ id)
    ∧ (∀ e ∈ (removeApp db id).history, e.appId ≠ id)
    ∧ getApp (removeApp db id) id = none
    ∧ getScanHistory (removeApp db id) id = []
    ∧ (∀ a ∈ db.apps, a.id ≠ id → a ∈ (removeApp db id).apps)
    ∧ (∀ a ∈ (removeApp db id).apps, a ∈ db.apps)
    ∧ (∀ e ∈ db.history, e.appId ≠ id → e ∈ (removeApp db id).history)
    ∧ (∀ e ∈ (removeApp db id).history, e ∈ db.history) := by
  refine ⟨?_, ?_, ?_, ?_, ?_, ?_, ?_, ?_⟩
  · intro a ha
    rcases List.mem_filter.mp ha with ⟨_, hpa⟩
    simpa using hpa
  · intro e he
    rcases List.mem_filter.mp he with ⟨_, hpe⟩
    simpa using hpe
  · unfold getApp removeApp
    rw [List.find?_eq_none]
    intro a ha
    rcases List.mem_filter.mp ha with ⟨_, hpa⟩
    simpa using hpa
  · unfold getScanHistory removeApp
    have hnil : (db.history.filter (fun h => !(h.appId == id))).filter
        (fun h => h.appId == id) = [] := by
      rw [List.filter_eq_nil_iff]
      intro e he
      rcases List.mem_filter.mp he with ⟨_, hpe⟩
      simpa using hpe
    rw [hnil]
    rfl
  · intro a ha hne
    exact List.mem_filter.mpr ⟨ha, by simpa using hne⟩
  · intro a ha
    exact (List.mem_filter.mp ha).1
  · intro e he hne
    exact List.mem_filter.mpr ⟨he, by simpa using hne⟩
  · intro e he
    exact (List.mem_filter.mp he).1

/-- C7 (witness): removing App 1 from a concrete store with two Apps and
history rows for both leaves exactly the rows of App 2. -/
theorem c7_witness :
    (∀ a ∈ (removeApp
        { apps := [{ id := 1, url := "http://127.0.0.1:3000", port := 3000,
                     name := some "A", category := some "Development",
                     status := Status.online, discoveredAt := 0,
                     lastCheckedAt := some 2 },
                   { id := 2, url := "http://127.0.0.1:4000", port := 4000,
                     name := some "B", category := some "Development",
                     status := Status.offline, discoveredAt := 1,
                     lastCheckedAt := some 3 }],
          history := [{ id := 1, appId := 1, status := Status.online,
                        responseTimeMs := 10, checkedAt := 2 },
                      { id := 2, appId := 2, status := Status.offline,
                        responseTimeMs := 20, checkedAt := 3 }],
          nextAppId := 3, nextHistId := 3, now := 4 } 1).apps, a.id ≠ 1)
    ∧ getApp (removeApp
        { apps := [{ id := 1, url := "http://127.0.0.1:3000", port := 3000,
                     name := some "A", category := some "Development",
                     status := Status.online, discoveredAt := 0,
                     lastCheckedAt := some 2 },
                   { id := 2, url := "http://127.0.0.1:4000", port := 4000,
                     name := some "B", category := some "Development",
                     status := Status.offline, discoveredAt := 1,
                     lastCheckedAt := some 3 }],
          history := [{ id := 1, appId := 1, status := Status.online,
                        responseTimeMs := 10, checkedAt := 2 },
                      { id := 2, appId := 2, status := Status.offline,
                        responseTimeMs := 20, checkedAt := 3 }],
          nextAppId := 3, nextHistId := 3, now := 4 } 1) 1 = none :=
  ⟨(c7_removeApp_cascade _ 1).1, (c7_removeApp_cascade _ 1).2.2.1⟩

lemma jsOr_of_truthy (x : Option String) (d : String)
    (h : jsTruthy x = true) : some (jsOr x d) = x := by
  cases x with
  | none => simp [jsTruthy] at h
  | some s =>
    simp only [jsTruthy, Bool.not_eq_true'] at h
    simp [jsOr, h]

lemma jsOr_of_falsy (x : Option String) (d : String)
    (h : jsTruthy x = false) : jsOr x d = d := by
  cases x with
  | none => rfl
  | some s =>
    have hs : s = "" := by simpa [jsTruthy] using h
    simp [jsOr, hs]

lemma jsOr_ne_empty (x : Option String) (d : String) (hd : d ≠ "") :
    jsOr x d ≠ "" := by
  cases x with
  | none => exact hd
  | some s =>
    by_cases hs : (s == "") = true
    · simpa [jsOr, hs] using hd
    · simp only [jsOr, hs, Bool.false_eq_true, if_false]
      simpa using hs

lemma jsTruthy_of_ne (x : Option String) (s : String) (hx : x = some s)
    (hs : s ≠ "") : jsTruthy x = true := by
  subst hx
  simp [jsTruthy, hs]

lemma portDefault_ne_empty (port : Nat) : ("Port " ++ toString port) ≠ "" := by
  intro h
  have hlen := congrArg String.length h
  rw [String.length_append] at hlen
  have h5 : ("Port ").length = 5 := by decide
  have h0 : ("").length = 0 := by decide
  omega

lemma nonDegenerate_spec (db : DB) (h : nonDegenerate db = true) :
    ∀ x ∈ db.apps, x.name ≠ some "" ∧ x.category ≠ some "" := by
  rw [nonDegenerate, List.all_eq_true] at h
  intro x hx
  have := h x hx
  rw [Bool.and_eq_true] at this
  constructor
  · simpa using this.1
  · simpa using this.2

lemma length_backfillName (l : List App) (url : String) (n : Option String)
    (ex : App) : (backfillName l url n ex).length = l.length := by
  unfold backfillName
  split <;> simp

lemma length_backfillCategory (l : List App) (url : String)
    (c : Option String) (ex : App) :
    (backfillCategory l url c ex).length = l.length := by
  unfold backfillCategory
  split <;> simp

lemma find?_backfillName (l : List App) (url : String) (n : Option String)
    (ex b : App) (h : l.find? (fun x => x.url == url) = some b) :
    (backfillName l url n ex).find? (fun x => x.url == url)
      = some (if jsTruthy n && !(jsTruthy ex.name) then { b with name := n }
              else b) := by
  by_cases hc : (jsTruthy n && !(jsTruthy ex.name)) = true
  · rw [backfillName, if_pos hc, if_pos hc]
    exact find?_map_update l url (fun x => { x with name := n })
      (fun x => rfl) b h
  · rw [backfillName, if_neg hc, if_neg hc]
    exact h

lemma find?_backfillCategory (l : List App) (url : String)
    (c : Option String) (ex b : App)
    (h : l.find? (fun x => x.url == url) = some b) :
    (backfillCategory l url c ex).find? (fun x => x.url == url)
      = some (if jsTruthy c && !(jsTruthy ex.category) then
                { b with category := c }
              else b) := by
  by_cases hc : (jsTruthy c && !(jsTruthy ex.category)) = true
  · rw [backfillCategory, if_pos hc, if_pos hc]
    exact find?_map_update l url (fun x => { x with category := c })
      (fun x => rfl) b h
  · rw [backfillCategory, if_neg hc, if_neg hc]
    exact h

/-- C3: for a url that already has an App row, `addApp` never creates a
second row, never changes `discoveredAt`, and writes `name`/`category` only
when the stored field is currently null (backfill), never overwriting a
populated field.  The hypothesis `nonDegenerate` records the creation
invariant that no stored name or category is the empty string (rows are only
ever created with truthy defaults and backfilled with truthy values), under
which the source's JavaScript falsiness test coincides with the null test. -/
theorem c3_addApp_idempotent (db : DB) (url : String) (port : Nat)
    (n c : Option String) (a : App)
    (ha : getAppByUrl db url = some a)
    (hnd : nonDegenerate db = true) :
    (addApp db url port n c).1.apps.length = db.apps.length
    ∧ ∃ a', getAppByUrl (addApp db url port n c).1 url = some a'
        ∧ a'.id = a.id
        ∧ a'.discoveredAt = a.discoveredAt
        ∧ a'.url = a.url
        ∧ (a.name ≠ none → a'.name = a.name)
        ∧ (a.category ≠ none → a'.category = a.category)
        ∧ (a.name = none → jsTruthy n = true → a'.name = n)
        ∧ (a.name = none → jsTruthy n = false → a'.name = none)
        ∧ (a.category = none → jsTruthy c = true → a'.category = c)
        ∧ (a.category = none → jsTruthy c = false → a'.category = none) := by
  have hmem : a ∈ db.apps := List.mem_of_find?_eq_some ha
  have hspec := nonDegenerate_spec db hnd a hmem
  have haddApp : addApp db url port n c =
      ({ db with
          apps := backfillCategory (backfillName db.apps url n a) url c a },
       some a) := by
    unfold addApp
    rw [ha]
  rw [haddApp]
  constructor
  · show (backfillCategory (backfillName db.apps url n a) url c a).length
      = db.apps.length
    rw [length_backfillCategory, length_backfillName]
  · have h1 := find?_backfillName db.apps url n a a ha
    have h2 := find?_backfillCategory (backfillName db.apps url n a) url c a
      _ h1
    by_cases hcn : (jsTruthy n && !(jsTruthy a.name)) = true <;>
      by_cases hcc : (jsTruthy c && !(jsTruthy a.category)) = true
    · rw [if_pos hcc, if_pos hcn] at h2
      have hnf : jsTruthy a.name = false := by
        have hsplit : jsTruthy n = true ∧ jsTruthy a.name = false := by
          simpa using hcn
        exact hsplit.2
      have hnameNone : a.name = none := by
        cases hA : a.name with
        | none => rfl
        | some s =>
          rw [hA] at hnf
          have hs : s = "" := by simpa [jsTruthy] using hnf
          rw [hs] at hA
          exact absurd hA hspec.1
      have hcf : jsTruthy a.category = false := by
        have hsplit : jsTruthy c = true ∧ jsTruthy a.category = false := by
          simpa using hcc
        exact hsplit.2
      have hcatNone : a.category = none := by
        cases hA : a.category with
        | none => rfl
        | some s =>
          rw [hA] at hcf
          have hs : s = "" := by simpa [jsTruthy] using hcf
          rw [hs] at hA
          exact absurd hA hspec.2
      refine ⟨_, h2, rfl, rfl, rfl, ?_, ?_, ?_, ?_, ?_, ?_⟩
      · intro hne
        exact absurd hnameNone hne
      · intro hne
        exact absurd hcatNone hne
      · intro _ _
        rfl
      · intro _ hn
        rw [hn] at hcn
        simp at hcn
      · intro _ _
        rfl
      · intro _ hc
        rw [hc] at hcc
        simp at hcc
    · rw [if_neg hcc, if_pos hcn] at h2
      have hnf : jsTruthy a.name = false := by
        have hsplit : jsTruthy n = true ∧ jsTruthy a.name = false := by
          simpa using hcn
        exact hsplit.2
      have hnameNone : a.name = none := by
        cases hA : a.name with
        | none => rfl
        | some s =>
          rw [hA] at hnf
          have hs : s = "" := by simpa [jsTruthy] using hnf
          rw [hs] at hA
          exact absurd hA hspec.1
      refine ⟨_, h2, rfl, rfl, rfl, ?_, ?_, ?_, ?_, ?_, ?_⟩
      · intro hne
        exact absurd hnameNone hne
      · intro _
        rfl
      · intro _ _
        rfl
      · intro _ hn
        rw [hn] at hcn
        simp at hcn
      · intro hA hc
        exact absurd (by rw [hA, hc]; rfl) hcc
      · intro hA _
        exact hA
    · rw [if_pos hcc, if_neg hcn] at h2
      have hcf : jsTruthy a.category = false := by
        have hsplit : jsTruthy c = true ∧ jsTruthy a.category = false := by
          simpa using hcc
        exact hsplit.2
      have hcatNone : a.category = none := by
        cases hA : a.category with
        | none => rfl
        | some s =>
          rw [hA] at hcf
          have hs : s = "" := by simpa [jsTruthy] using hcf
          rw [hs] at hA
          exact absurd hA hspec.2
      refine ⟨_, h2, rfl, rfl, rfl, ?_, ?_, ?_, ?_, ?_, ?_⟩
      · intro _
        rfl
      · intro hne
        exact absurd hcatNone hne
      · intro hA hn
        exact absurd (by rw [hA, hn]; rfl) hcn
      · intro hA _
        exact hA
      · intro _ _
        rfl
      · intro _ hc
        rw [hc] at hcc
        simp at hcc
    · rw [if_neg hcc, if_neg hcn] at h2
      refine ⟨_, h2, rfl, rfl, rfl, ?_, ?_, ?_, ?_, ?_, ?_⟩
      · intro _
        rfl
      · intro _
        rfl
      · intro hA hn
        exact absurd (by rw [hA, hn]; rfl) hcn
      · intro hA _
        exact hA
      · intro hA hc
        exact absurd (by rw [hA, hc]; rfl) hcc
      · intro hA _
        exact hA

/-- An existing App row with a populated name and a null category. -/
def c3App : App :=
  { id := 1
    url := "http://127.0.0.1:3000"
    port := 3000
    name := some "React Dev Server"
    category := none
    status := Status.unknown
    discoveredAt := 0
    lastCheckedAt := none }

/-- A store containing only `c3App`. -/
def c3Db : DB :=
  { apps := [c3App]
    history := []
    nextAppId := 2
    nextHistId := 1
    now := 1 }

/-- C3 (witness): a second `addApp` call against the stored url keeps the
row count, the discovery time and the populated name, and backfills only the
null category. -/
theorem c3_witness :
    (addApp c3Db "http://127.0.0.1:3000" 3000 (some "Grafana")
        (some "Monitoring")).1.apps.length = c3Db.apps.length
    ∧ ∃ a', getAppByUrl
            (addApp c3Db "http://127.0.0.1:3000" 3000 (some "Grafana")
              (some "Monitoring")).1 "http://127.0.0.1:3000" = some a'
        ∧ a'.id = c3App.id
        ∧ a'.discoveredAt = c3App.discoveredAt
        ∧ a'.url = c3App.url
        ∧ (c3App.name ≠ none → a'.name = c3App.name)
        ∧ (c3App.category ≠ none → a'.category = c3App.category)
        ∧ (c3App.name = none → jsTruthy (some "Grafana") = true →
            a'.name = some "Grafana")
        ∧ (c3App.name = none → jsTruthy (some "Grafana") = false →
            a'.name = none)
        ∧ (c3App.category = none → jsTruthy (some "Monitoring") = true →
            a'.category = some "Monitoring")
        ∧ (c3App.category = none → jsTruthy (some "Monitoring") = false →
            a'.category = none) :=
  c3_addApp_idempotent c3Db "http://127.0.0.1:3000" 3000 (some "Grafana")
    (some "Monitoring") c3App (by decide) (by decide)

lemma find?_append_new (l : List App) (url : String) (x : App)
    (h : l.find? (fun a => a.url == url) = none) (hx : x.url = url) :
    (l ++ [x]).find? (fun a => a.url == url) = some x := by
  rw [List.find?_append, h, Option.none_or]
  rw [List.find?_cons_of_pos _ (by simp [hx])]

lemma addApp_new (db : DB) (url : String) (port : Nat)
    (n c : Option String) (h : getAppByUrl db url = none) :
    addApp db url port n c =
      ({ db with
          apps := db.apps ++
            [{ id := db.nextAppId, url := url, port := port,
               name := some (jsOr n ("Port " ++ toString port)),
               category := some (jsOr c "Unknown"),
               status := Status.unknown, discoveredAt := db.now,
               lastCheckedAt := none }]
          nextAppId := db.nextAppId + 1
          now := db.now + 1 },
       some { id := db.nextAppId, url := url, port := port,
              name := some (jsOr n ("Port " ++ toString port)),
              category := some (jsOr c "Unknown"),
              status := Status.unknown, discoveredAt := db.now,
              lastCheckedAt := none }) := by
  unfold addApp
  rw [h]
  unfold getAppByUrl at h
  rw [Prod.ext_iff]
  refine ⟨rfl, ?_⟩
  exact find?_append_new db.apps url
    { id := db.nextAppId, url := url, port := port,
      name := some (jsOr n ("Port " ++ toString port)),
      category := some (jsOr c "Unknown"),
      status := Status.unknown, discoveredAt := db.now,
      lastCheckedAt := none } h rfl

/-- C9: every App row created by `addApp` has a non-null, non-empty name and
category: a missing or empty name argument is replaced by the default
`Port <port>` and a missing or empty category by `Unknown` (via the
JavaScript `||`).  Consequently a later `addApp` call on the same url never
takes the backfill branch for such a row: it returns the very same store and
row unchanged. -/
theorem c9_addApp_creation_defaults (db : DB) (url : String) (port : Nat)
    (n c : Option String) (h : getAppByUrl db url = none) :
    ∃ app, (addApp db url port n c).2 = some app
      ∧ app.url = url
      ∧ app.status = Status.unknown
      ∧ app.discoveredAt = db.now
      ∧ app.name = some (jsOr n ("Port " ++ toString port))
      ∧ app.category = some (jsOr c "Unknown")
      ∧ (jsTruthy n = false → app.name = some ("Port " ++ toString port))
      ∧ (jsTruthy n = true → app.name = n)
      ∧ (jsTruthy c = false → app.category = some "Unknown")
      ∧ (jsTruthy c = true → app.category = c)
      ∧ app.name ≠ none
      ∧ (∀ s, app.name = some s → s ≠ "")
      ∧ app.category ≠ none
      ∧ (∀ s, app.category = some s → s ≠ "")
      ∧ (∀ port2 n2 c2, addApp (addApp db url port n c).1 url port2 n2 c2
            = ((addApp db url port n c).1, some app)) := by
  rw [addApp_new db url port n c h]
  refine ⟨_, rfl, rfl, rfl, rfl, rfl, rfl, ?_, ?_, ?_, ?_, ?_, ?_, ?_, ?_,
    ?_⟩
  · intro hn
    show some (jsOr n ("Port " ++ toString port)) = _
    rw [jsOr_of_falsy n _ hn]
  · intro hn
    exact jsOr_of_truthy n _ hn
  · intro hc
    show some (jsOr c "Unknown") = _
    rw [jsOr_of_falsy c _ hc]
  · intro hc
    exact jsOr_of_truthy c _ hc
  · exact Option.some_ne_none _
  · intro s hs
    injection hs with hs'
    rw [← hs']
    exact jsOr_ne_empty n _ (portDefault_ne_empty port)
  · exact Option.some_ne_none _
  · intro s hs
    injection hs with hs'
    rw [← hs']
    exact jsOr_ne_empty c _ (by decide)
  · intro port2 n2 c2
    have hnameTruthy :
        jsTruthy (some (jsOr n ("Port " ++ toString port))) = true := by
      show (!(jsOr n ("Port " ++ toString port) == "")) = true
      rw [beq_eq_false_iff_ne.mpr (jsOr_ne_empty n _
        (portDefault_ne_empty port))]
      rfl
    have hcatTruthy : jsTruthy (some (jsOr c "Unknown")) = true := by
      show (!(jsOr c "Unknown" == "")) = true
      rw [beq_eq_false_iff_ne.mpr (jsOr_ne_empty c _ (by decide))]
      rfl
    have hfound : getAppByUrl
        { db with
          apps := db.apps ++
            [{ id := db.nextAppId, url := url, port := port,
               name := some (jsOr n ("Port " ++ toString port)),
               category := some (jsOr c "Unknown"),
               status := Status.unknown, discoveredAt := db.now,
               lastCheckedAt := none }]
          nextAppId := db.nextAppId + 1
          now := db.now + 1 } url
        = some { id := db.nextAppId, url := url, port := port,
                 name := some (jsOr n ("Port " ++ toString port)),
                 category := some (jsOr c "Unknown"),
                 status := Status.unknown, discoveredAt := db.now,
                 lastCheckedAt := none } :=
      find?_append_new db.apps url _ h rfl
    unfold addApp
    rw [hfound]
    have hb1 : backfillName
        (db.apps ++
          [{ id := db.nextAppId, url := url, port := port,
             name := some (jsOr n ("Port " ++ toString port)),
             category := some (jsOr c "Unknown"),
             status := Status.unknown, discoveredAt := db.now,
             lastCheckedAt := none }]) url n2
        { id := db.nextAppId, url := url, port := port,
          name := some (jsOr n ("Port " ++ toString port)),
          category := some (jsOr c "Unknown"),
          status := Status.unknown, discoveredAt := db.now,
          lastCheckedAt := none }
        = db.apps ++
          [{ id := db.nextAppId, url := url, port := port,
             name := some (jsOr n ("Port " ++ toString port)),
             category := some (jsOr c "Unknown"),
             status := Status.unknown, discoveredAt := db.now,
             lastCheckedAt := none }] := by
      unfold backfillName
      rw [if_neg]
      simp [hnameTruthy]
    have hb2 : backfillCategory
        (db.apps ++
          [{ id := db.nextAppId, url := url, port := port,
             name := some (jsOr n ("Port " ++ toString port)),
             category := some (jsOr c "Unknown"),
             status := Status.unknown, discoveredAt := db.now,
             lastCheckedAt := none }]) url c2
        { id := db.nextAppId, url := url, port := port,
          name := some (jsOr n ("Port " ++ toString port)),
          category := some (jsOr c "Unknown"),
          status := Status.unknown, discoveredAt := db.now,
          lastCheckedAt := none }
        = db.apps ++
          [{ id := db.nextAppId, url := url, port := port,
             name := some (jsOr n ("Port " ++ toString port)),
             category := some (jsOr c "Unknown"),
             status := Status.unknown, discoveredAt := db.now,
             lastCheckedAt := none }] := by
      unfold backfillCategory
      rw [if_neg]
      simp [hcatTruthy]
    show ({ apps := _, history := _, nextAppId := _, nextHistId := _,
            now := _ : DB }, _) = _
    rw [hb1, hb2]

/-- C9 (witness): creating a row in an empty store with a null name and an
empty-string category yields the defaults. -/
theorem c9_witness :
    ∃ app, (addApp
          { apps := [], history := [], nextAppId := 1, nextHistId := 1,
            now := 0 } "http://127.0.0.1:8123" 8123 none (some "")).2
        = some app
      ∧ app.url = "http://127.0.0.1:8123"
      ∧ app.status = Status.unknown
      ∧ app.discoveredAt = 0
      ∧ app.name = some (jsOr none ("Port " ++ toString 8123))
      ∧ app.category = some (jsOr (some "") "Unknown")
      ∧ (jsTruthy none = false →
          app.name = some ("Port " ++ toString 8123))
      ∧ (jsTruthy none = true → app.name = none)
      ∧ (jsTruthy (some "") = false → app.category = some "Unknown")
      ∧ (jsTruthy (some "") = true → app.category = some "")
      ∧ app.name ≠ none
      ∧ (∀ s, app.name = some s → s ≠ "")
      ∧ app.category ≠ none
      ∧ (∀ s, app.category = some s → s ≠ "")
      ∧ (∀ port2 n2 c2, addApp (addApp
            { apps := [], history := [], nextAppId := 1, nextHistId := 1,
              now := 0 } "http://127.0.0.1:8123" 8123 none (some "")).1
            "http://127.0.0.1:8123" port2 n2 c2
          = ((addApp
              { apps := [], history := [], nextAppId := 1, nextHistId := 1,
                now := 0 } "http://127.0.0.1:8123" 8123 none (some "")).1,
             some app)) :=
  c9_addApp_creation_defaults
    { apps := [], history := [], nextAppId := 1, nextHistId := 1, now := 0 }
    "http://127.0.0.1:8123" 8123 none (some "") (by decide)

/-- C4: for an existing url, `recordScan(url, online, 120)` applies both
writes as one state transition (the embedding of the two back-to-back
synchronous statements is a single function, so no state with only one write
applied is observable): afterwards `getApp` returns the row with status
online and a `lastCheckedAt` strictly later than any previous one, and
`getScanHistory` returns a newest entry with `responseTimeMs = 120` recorded
at the same instant. -/
theorem c4_recordScan_combined_update (db : DB) (url : String) (a : App)
    (ha : getAppByUrl db url = some a)
    (hc : clockInv db = true)
    (hp : db.history.Pairwise (fun x y => x.checkedAt < y.checkedAt))
    (hids : db.apps.Pairwise (fun x y => x.id ≠ y.id)) :
    (∃ a', getApp (recordScan db url Status.online 120) a.id = some a'
        ∧ a'.status = Status.online
        ∧ a'.lastCheckedAt = some db.now
        ∧ ∀ t, a.lastCheckedAt = some t → t < db.now)
    ∧ (∃ e, (getScanHistory (recordScan db url Status.online 120)
            a.id).head? = some e
        ∧ e.responseTimeMs = 120
        ∧ e.status = Status.online
        ∧ e.checkedAt = db.now) := by
  constructor
  · refine ⟨{ a with status := Status.online, lastCheckedAt := some db.now }, ?_, rfl, rfl, ?_⟩
    · rw [recordScan_found db url a Status.online 120 ha]
      unfold getApp
      exact find?_id_map_update db.apps url
        (fun x => { x with status := Status.online, lastCheckedAt := some db.now })
        (fun x => rfl) a ha hids
    · exact fun t ht =>
        clockInv_apps db hc a (List.mem_of_find?_eq_some ha) t ht
  · have hfil := history_recordScan_filter db url a Status.online 120 ha
    have hpf : (db.history.filter (fun e => e.appId == a.id)).Pairwise
        (fun x y => x.checkedAt < y.checkedAt) :=
      List.Pairwise.sublist (List.filter_sublist _) hp
    have hpair2 : List.Pairwise
        (fun (x y : HistoryEntry) => x.checkedAt < y.checkedAt)
        ((db.history.filter (fun e => e.appId == a.id)) ++
          [{ id := db.nextHistId, appId := a.id, status := Status.online,
             responseTimeMs := 120, checkedAt := db.now }]) := by
      rw [List.pairwise_append]
      refine ⟨hpf, List.pairwise_singleton _ _, ?_⟩
      intro x hx y hy
      rcases List.mem_singleton.mp hy with rfl
      exact clockInv_history db hc x (List.mem_of_mem_filter hx)
    refine ⟨{ id := db.nextHistId, appId := a.id, status := Status.online, responseTimeMs := 120, checkedAt := db.now }, ?_, rfl, rfl, rfl⟩
    unfold getScanHistory
    rw [hfil, sortDesc_eq_reverse _ hpair2, List.reverse_append]
    rfl

/-- An App that was last checked offline at time 1. -/
def c4App : App :=
  { id := 1
    url := "http://127.0.0.1:3000"
    port := 3000
    name := some "React Dev Server"
    category := some "Development"
    status := Status.offline
    discoveredAt := 0
    lastCheckedAt := some 1 }

/-- A store containing `c4App` and one history row for it. -/
def c4Db : DB :=
  { apps := [c4App]
    history := [{ id := 1, appId := 1, status := Status.offline,
                  responseTimeMs := 30, checkedAt := 1 }]
    nextAppId := 2
    nextHistId := 2
    now := 2 }

/-- C4 (witness): the combined-update theorem applied to the concrete store
`c4Db`. -/
theorem c4_witness :
    (∃ a', getApp (recordScan c4Db "http://127.0.0.1:3000" Status.online 120)
          c4App.id = some a'
        ∧ a'.status = Status.online
        ∧ a'.lastCheckedAt = some c4Db.now
        ∧ ∀ t, c4App.lastCheckedAt = some t → t < c4Db.now)
    ∧ (∃ e, (getScanHistory
            (recordScan c4Db "http://127.0.0.1:3000" Status.online 120)
            c4App.id).head? = some e
        ∧ e.responseTimeMs = 120
        ∧ e.status = Status.online
        ∧ e.checkedAt = c4Db.now) :=
  c4_recordScan_combined_update c4Db "http://127.0.0.1:3000" c4App
    (by decide) (by decide) (by decide) (by decide)

/-- C5: after 51 more `recordScan` calls for an App's url, `getScanHistory`
returns exactly 50 entries, in strictly newest-first order, and the App's
oldest stored history entry is no longer among them; moreover
`getScanHistory` never returns more than 50 entries for any store and id. -/
theorem c5_history_capped (db : DB) (url : String) (a : App)
    (scans : List (Status × Nat))
    (ha : getAppByUrl db url = some a)
    (hc : clockInv db = true)
    (hp : db.history.Pairwise (fun x y => x.checkedAt < y.checkedAt))
    (hlen : scans.length = 51) :
    (getScanHistory (recordScanFold db url scans) a.id).length = 50
    ∧ (getScanHistory (recordScanFold db url scans) a.id).Pairwise
        (fun x y => y.checkedAt < x.checkedAt)
    ∧ (∀ e, ((recordScanFold db url scans).history.filter
            (fun x => x.appId == a.id)).head? = some e →
          e ∉ getScanHistory (recordScanFold db url scans) a.id)
    ∧ (∀ (d : DB) (i : Nat), (getScanHistory d i).length ≤ 50) := by
  unfold recordScanFold
  rcases recordScan_fold scans db url a ha hc hp with ⟨a', h1, h2, h3, h4, h5⟩
  rw [hlen] at h5
  have hpf : ((scans.foldl (fun d p => recordScan d url p.1 p.2)
        db).history.filter (fun x => x.appId == a.id)).Pairwise
      (fun x y => x.checkedAt < y.checkedAt) :=
    List.Pairwise.sublist (List.filter_sublist _) h4
  refine ⟨?_, ?_, ?_, ?_⟩
  · unfold getScanHistory
    rw [List.length_take, length_sortDesc, h5]
    exact Nat.min_eq_left (by omega)
  · unfold getScanHistory
    rw [sortDesc_eq_reverse _ hpf]
    exact List.Pairwise.sublist (List.take_sublist _ _)
      (List.pairwise_reverse.mpr hpf)
  · intro e he hmem
    unfold getScanHistory at hmem
    rw [sortDesc_eq_reverse _ hpf] at hmem
    cases hFc : (scans.foldl (fun d p => recordScan d url p.1 p.2)
        db).history.filter (fun x => x.appId == a.id) with
    | nil => rw [hFc] at he; simp at he
    | cons x t =>
      rw [hFc] at he
      simp only [List.head?_cons, Option.some.injEq] at he
      rw [hFc] at hmem hpf h5
      subst he
      simp only [List.length_cons] at h5
      have hdropLen : ((x :: t).drop
          ((db.history.filter (fun y => y.appId == a.id)).length + 1)).length
          = 50 := by
        rw [List.length_drop, List.length_cons]
        omega
      have hsplit : (x :: t).reverse
          = ((x :: t).drop
              ((db.history.filter (fun y => y.appId == a.id)).length
                + 1)).reverse
            ++ ((x :: t).take
              ((db.history.filter (fun y => y.appId == a.id)).length
                + 1)).reverse := by
        rw [← List.reverse_append, List.take_append_drop]
      have htake : ((x :: t).reverse).take 50
          = ((x :: t).drop
              ((db.history.filter (fun y => y.appId == a.id)).length
                + 1)).reverse := by
        rw [hsplit]
        have h50 : (50 : Nat)
            = (((x :: t).drop
                ((db.history.filter (fun y => y.appId == a.id)).length
                  + 1)).reverse).length := by
          rw [List.length_reverse, hdropLen]
        rw [h50]
        exact List.take_left _ _
      rw [htake] at hmem
      rw [List.mem_reverse] at hmem
      rw [List.drop_succ_cons] at hmem
      have hmemT : x ∈ t :=
        List.drop_subset _ t hmem
      have hlt := (List.pairwise_cons.mp hpf).1 x hmemT
      exact lt_irrefl _ hlt
  · intro d i
    exact List.length_take_le _ _

/-- An App with no history yet. -/
def c5App : App :=
  { id := 1
    url := "http://127.0.0.1:3000"
    port := 3000
    name := some "React Dev Server"
    category := some "Development"
    status := Status.unknown
    discoveredAt := 0
    lastCheckedAt := none }

/-- A store containing `c5App` and an empty history table. -/
def c5Db : DB :=
  { apps := [c5App]
    history := []
    nextAppId := 2
    nextHistId := 1
    now := 1 }

/-- C5 (witness): the cap theorem applied to 51 concrete `recordScan`
calls. -/
theorem c5_witness :
    (getScanHistory (recordScanFold c5Db "http://127.0.0.1:3000"
        (List.replicate 51 (Status.online, 100))) c5App.id).length = 50
    ∧ (getScanHistory (recordScanFold c5Db "http://127.0.0.1:3000"
        (List.replicate 51 (Status.online, 100))) c5App.id).Pairwise
        (fun x y => y.checkedAt < x.checkedAt)
    ∧ (∀ e, ((recordScanFold c5Db "http://127.0.0.1:3000"
            (List.replicate 51 (Status.online, 100))).history.filter
            (fun x => x.appId == c5App.id)).head? = some e →
          e ∉ getScanHistory (recordScanFold c5Db "http://127.0.0.1:3000"
            (List.replicate 51 (Status.online, 100))) c5App.id)
    ∧ (∀ (d : DB) (i : Nat), (getScanHistory d i).length ≤ 50) :=
  c5_history_capped c5Db "http://127.0.0.1:3000" c5App
    (List.replicate 51 (Status.online, 100)) (by decide) (by decide)
    (by decide) (by decide)

lemma scanLoop_append_ok (process : DiscoveredServer → Except String Unit)
    (pre : List DiscoveredServer)
    (hpre : ∀ x ∈ pre, process x = Except.ok ())
    (rest : List DiscoveredServer) :
    scanLoop process (pre ++ rest)
      = ((pre.map fun _ => Event.app_discovered)
          ++ (scanLoop process rest).1, (scanLoop process rest).2) := by
  induction pre with
  | nil => simp [scanLoop]
  | cons x xs ih =>
    have hx : process x = Except.ok () := hpre x (List.mem_cons_self x xs)
    have hxs : ∀ y ∈ xs, process y = Except.ok () :=
      fun y hy => hpre y (List.mem_cons_of_mem x hy)
    simp only [List.cons_append, scanLoop, hx, List.map_cons]
    rw [List.append_eq, ih hxs]

/-- A discovered server whose pipeline step succeeds. -/
def c6ServerB : DiscoveredServer :=
  { port := 3001
    protocol := Protocol.http
    url := "http://127.0.0.1:3001"
    status := "online"
    statusCode := 200
    title := none }

/-- A discovered server whose pipeline step throws. -/
def c6ServerA : DiscoveredServer :=
  { port := 3000
    protocol := Protocol.http
    url := "http://127.0.0.1:3000"
    status := "online"
    statusCode := 200
    title := some "Dev" }

/-- A per-server pipeline that throws for port 3000 (say, `addApp` hits a
write error or, in the full scan, the nonexistent `database.updateMetadata`
is called) and completes for every other server. -/
def c6Process : DiscoveredServer → Except String Unit :=
  fun s => if s.port == 3000 then Except.error "ECONNRESET" else Except.ok ()

/-- C6 (counterexample): with two discovered servers where only the first
server's per-server pipeline step throws, the handler broadcasts
`scan_error` and stops: the second server is never processed (no
`app_discovered` event at all and no `scan_complete`), refuting the claim
that a per-server failure does not abort processing of the remaining
servers. -/
theorem c6_counterexample_step_failure_aborts :
    scanHandler "quick" (Except.ok [c6ServerA, c6ServerB]) c6Process
      = ([Event.scan_start "quick", Event.scan_error], false)
    ∧ c6Process c6ServerB = Except.ok ()
    ∧ Event.app_discovered
        ∉ (scanHandler "quick" (Except.ok [c6ServerA, c6ServerB])
            c6Process).1 := by
  refine ⟨rfl, rfl, ?_⟩
  decide

/-- C6 (amended): the per-server pipeline runs inside the same try block as
the port probe, with no per-server catch: an exception thrown by any
per-server step aborts the whole scan exactly like a Port Probe failure —
the servers before the failing one are processed (one `app_discovered`
each), the remaining ones are abandoned, and the handler emits `scan_error`
and fails.  A Port Probe failure likewise emits `scan_error`. -/
theorem c6_step_failure_aborts_scan (mode : String)
    (process : DiscoveredServer → Except String Unit)
    (pre post : List DiscoveredServer) (s : DiscoveredServer)
    (e msg : String)
    (hpre : ∀ x ∈ pre, process x = Except.ok ())
    (hs : process s = Except.error msg) :
    scanHandler mode (Except.ok (pre ++ s :: post)) process
      = (Event.scan_start mode :: ((pre.map fun _ => Event.app_discovered)
          ++ [Event.scan_error]), false)
    ∧ scanHandler mode (Except.error e) process
      = ([Event.scan_start mode, Event.scan_error], false) := by
  constructor
  · have hloop : scanLoop process (pre ++ s :: post)
        = ((pre.map fun _ => Event.app_discovered), some msg) := by
      rw [scanLoop_append_ok process pre hpre (s :: post)]
      unfold scanLoop
      rw [hs]
      simp
    simp only [scanHandler]
    rw [hloop]
    rfl
  · rfl

/-- C6 (witness): the abort theorem applied to a concrete scan in which the
second of two discovered servers fails. -/
theorem c6_witness :
    scanHandler "quick" (Except.ok ([c6ServerB] ++ c6ServerA :: []))
        c6Process
      = (Event.scan_start "quick"
          :: (([c6ServerB].map fun _ => Event.app_discovered)
              ++ [Event.scan_error]), false)
    ∧ scanHandler "quick" (Except.error "probe failed") c6Process
      = ([Event.scan_start "quick", Event.scan_error], false) :=
  c6_step_failure_aborts_scan "quick" c6Process [c6ServerB] [] c6ServerA
    "probe failed" "ECONNRESET"
    (by intro x hx; rcases List.mem_singleton.mp hx with rfl; rfl) rfl

lemma tryProtocol_resolved_str (port c : Nat) (t : Option String)
    (proto : Protocol) (h1 : 100 ≤ c) (h2 : c < 600) :
    tryProtocol port proto (HttpAttempt.resolved c (BodyData.strBody t))
      = some { port := port, protocol := proto, url := serverUrl proto port,
               status := "online", statusCode := c, title := t } := by
  show (if 100 ≤ c ∧ c < 600 then
      (some { port := port, protocol := proto, url := serverUrl proto port,
              status := "online", statusCode := c, title := t }
        : Option DiscoveredServer)
    else none)
    = some { port := port, protocol := proto, url := serverUrl proto port,
             status := "online", statusCode := c, title := t }
  rw [if_pos ⟨h1, h2⟩]

lemma tryProtocol_nonString (port c : Nat) (proto : Protocol) :
    tryProtocol port proto (HttpAttempt.resolved c BodyData.nonStringBody)
      = none := by
  show (if 100 ≤ c ∧ c < 600 then (none : Option DiscoveredServer)
    else none) = none
  split
  · rfl
  · rfl

lemma tryProtocol_failed (port : Nat) (proto : Protocol) :
    tryProtocol port proto HttpAttempt.failed = none := rfl

/-- C8 (counterexample): a port whose HTTP attempt receives a response
(status 200) with a non-string body (axios parsed it, e.g. as JSON) is
dropped entirely: `extractTitle` throws inside the try block, the loop falls
through to HTTPS which fails, and `checkHttpServer` returns null — so a
protocol that returned an HTTP response did not win, refuting the claim as
stated. -/
theorem c8_counterexample_nonstring_body_dropped :
    checkHttpServer 3000 (fun pr =>
      match pr with
      | Protocol.http => HttpAttempt.resolved 200 BodyData.nonStringBody
      | Protocol.https => HttpAttempt.failed) = none := by
  decide

/-- C8 (amended): HTTP is attempted first and HTTPS only if the HTTP attempt
yields nothing; the first protocol that returns an HTTP response of any
status code, with a body the title scan can process (a string — a non-string
body makes the title extraction throw, which is caught and treated as a
failed attempt), wins and is reported as a DiscoveredServer carrying the
scanned title; a port with no processable response on either protocol is
dropped.  Scanning [3000, 3001, 3002] where only 3000 answers HTTP with
title Dev yields exactly one DiscoveredServer for port 3000 with that
title. -/
theorem c8_checkHttpServer_spec (port c : Nat) (t : Option String)
    (hs : HttpAttempt) :
    (100 ≤ c → c < 600 →
      checkHttpServer port (fun pr =>
        match pr with
        | Protocol.http => HttpAttempt.resolved c (BodyData.strBody t)
        | Protocol.https => hs)
        = some { port := port, protocol := Protocol.http,
                 url := serverUrl Protocol.http port, status := "online",
                 statusCode := c, title := t })
    ∧ (100 ≤ c → c < 600 →
      checkHttpServer port (fun pr =>
        match pr with
        | Protocol.http => HttpAttempt.failed
        | Protocol.https => HttpAttempt.resolved c (BodyData.strBody t))
        = some { port := port, protocol := Protocol.https,
                 url := serverUrl Protocol.https port, status := "online",
                 statusCode := c, title := t })
    ∧ checkHttpServer port (fun _ => HttpAttempt.failed) = none
    ∧ tryProtocol port Protocol.http
        (HttpAttempt.resolved c BodyData.nonStringBody) = none
    ∧ checkHttpServer port (fun pr =>
        match pr with
        | Protocol.http => HttpAttempt.resolved c BodyData.nonStringBody
        | Protocol.https => hs)
        = tryProtocol port Protocol.https hs
    ∧ scanBatch [3000, 3001, 3002]
        (fun p => if p == 3000 then ConnectStatus.opened
          else if p == 3001 then ConnectStatus.opened
          else ConnectStatus.closed)
        (fun p pr => if p == 3000 && (pr == Protocol.http) then
            HttpAttempt.resolved 200 (BodyData.strBody (some "Dev"))
          else HttpAttempt.failed)
        = [{ port := 3000, protocol := Protocol.http,
             url := "http://127.0.0.1:3000", status := "online",
             statusCode := 200, title := some "Dev" }] := by
  refine ⟨?_, ?_, ?_, ?_, ?_, ?_⟩
  · intro h1 h2
    unfold checkHttpServer
    rw [tryProtocol_resolved_str port c t Protocol.http h1 h2]
  · intro h1 h2
    unfold checkHttpServer
    rw [tryProtocol_resolved_str port c t Protocol.https h1 h2]
    rfl
  · rfl
  · exact tryProtocol_nonString port c Protocol.http
  · unfold checkHttpServer
    rw [tryProtocol_nonString port c Protocol.http]
  · decide

/-- C8 (witness): the amended theorem applied to a 200 response carrying
title Dev. -/
theorem c8_witness :
    checkHttpServer 3000 (fun pr =>
        match pr with
        | Protocol.http =>
            HttpAttempt.resolved 200 (BodyData.strBody (some "Dev"))
        | Protocol.https => HttpAttempt.failed)
      = some { port := 3000, protocol := Protocol.http,
               url := serverUrl Protocol.http 3000, status := "online",
               statusCode := 200, title := some "Dev" }
    ∧ checkHttpServer 3000 (fun pr =>
        match pr with
        | Protocol.http => HttpAttempt.failed
        | Protocol.https =>
            HttpAttempt.resolved 200 (BodyData.strBody (some "Dev")))
      = some { port := 3000, protocol := Protocol.https,
               url := serverUrl Protocol.https 3000, status := "online",
               statusCode := 200, title := some "Dev" } :=
  ⟨(c8_checkHttpServer_spec 3000 200 (some "Dev") HttpAttempt.failed).1
      (by decide) (by decide),
   (c8_checkHttpServer_spec 3000 200 (some "Dev")
      HttpAttempt.failed).2.1 (by decide) (by decide)⟩
